import Mathlib

/-!
# Plugin registration glue of the pomodoro-timer Windows runner

Shallow embedding of `windows/flutter/generated_plugin_registrant.cc`.

The file holds one function, `RegisterPlugins`, a straight-line sequence of
nine statements of the form

    XRegisterWithRegistrar(registry->GetRegistrarForPlugin("X"));

Its collaborators are external: the registry's `GetRegistrarForPlugin`
method and the nine plugin entry points.  They are taken as parameters, as
state transformers over an arbitrary world `σ` returning registrars of an
arbitrary type `ρ`, so `RegisterPlugins` cannot look inside a registrar.
External calls are assumed to return (the source has no failure path of
its own).  A recording mock instantiates the collaborators so that the
sequence of calls can be observed.
-/

namespace PluginRegistrant

/-! ## Collaborators -/

/-- The class `flutter::PluginRegistry`, reduced to the one method the source
calls: `GetRegistrarForPlugin(name)`, which may change the world and returns
a registrar. -/
structure PluginRegistry (σ ρ : Type) where
  GetRegistrarForPlugin : String → StateM σ ρ

/-- The nine plugin entry points declared by the nine included plugin headers,
each under the name it has in the source. -/
structure PluginEntryPoints (σ ρ : Type) where
  AppLinksPluginCApiRegisterWithRegistrar : ρ → StateM σ Unit
  AudioplayersWindowsPluginRegisterWithRegistrar : ρ → StateM σ Unit
  BitsdojoWindowPluginRegisterWithRegistrar : ρ → StateM σ Unit
  ConnectivityPlusWindowsPluginRegisterWithRegistrar : ρ → StateM σ Unit
  ScreenRetrieverWindowsPluginCApiRegisterWithRegistrar : ρ → StateM σ Unit
  SystemTrayPluginRegisterWithRegistrar : ρ → StateM σ Unit
  UrlLauncherWindowsRegisterWithRegistrar : ρ → StateM σ Unit
  WindowSizePluginRegisterWithRegistrar : ρ → StateM σ Unit
  WindowsNotificationPluginCApiRegisterWithRegistrar : ρ → StateM σ Unit

/-! ## The source function -/

/-- The function `RegisterPlugins` of `generated_plugin_registrant.cc`, statement
by statement.  In each statement the argument (the registry call) is
evaluated before the entry point is called. -/
def RegisterPlugins {σ ρ : Type} (plugins : PluginEntryPoints σ ρ)
    (registry : PluginRegistry σ ρ) : StateM σ Unit := do
  plugins.AppLinksPluginCApiRegisterWithRegistrar
      (← registry.GetRegistrarForPlugin "AppLinksPluginCApi")
  plugins.AudioplayersWindowsPluginRegisterWithRegistrar
      (← registry.GetRegistrarForPlugin "AudioplayersWindowsPlugin")
  plugins.BitsdojoWindowPluginRegisterWithRegistrar
      (← registry.GetRegistrarForPlugin "BitsdojoWindowPlugin")
  plugins.ConnectivityPlusWindowsPluginRegisterWithRegistrar
      (← registry.GetRegistrarForPlugin "ConnectivityPlusWindowsPlugin")
  plugins.ScreenRetrieverWindowsPluginCApiRegisterWithRegistrar
      (← registry.GetRegistrarForPlugin "ScreenRetrieverWindowsPluginCApi")
  plugins.SystemTrayPluginRegisterWithRegistrar
      (← registry.GetRegistrarForPlugin "SystemTrayPlugin")
  plugins.UrlLauncherWindowsRegisterWithRegistrar
      (← registry.GetRegistrarForPlugin "UrlLauncherWindows")
  plugins.WindowSizePluginRegisterWithRegistrar
      (← registry.GetRegistrarForPlugin "WindowSizePlugin")
  plugins.WindowsNotificationPluginCApiRegisterWithRegistrar
      (← registry.GetRegistrarForPlugin "WindowsNotificationPluginCApi")

/-! ## Recording mock -/

/-- Identifies which of the nine entry points a recorded call went to. -/
inductive EntryPoint where
  | AppLinksPluginCApiRegisterWithRegistrar
  | AudioplayersWindowsPluginRegisterWithRegistrar
  | BitsdojoWindowPluginRegisterWithRegistrar
  | ConnectivityPlusWindowsPluginRegisterWithRegistrar
  | ScreenRetrieverWindowsPluginCApiRegisterWithRegistrar
  | SystemTrayPluginRegisterWithRegistrar
  | UrlLauncherWindowsRegisterWithRegistrar
  | WindowSizePluginRegisterWithRegistrar
  | WindowsNotificationPluginCApiRegisterWithRegistrar
  deriving DecidableEq

/-- The identifier of an entry point as it is spelled in the source. -/
def EntryPoint.symbol : EntryPoint → String
  | .AppLinksPluginCApiRegisterWithRegistrar =>
      "AppLinksPluginCApiRegisterWithRegistrar"
  | .AudioplayersWindowsPluginRegisterWithRegistrar =>
      "AudioplayersWindowsPluginRegisterWithRegistrar"
  | .BitsdojoWindowPluginRegisterWithRegistrar =>
      "BitsdojoWindowPluginRegisterWithRegistrar"
  | .ConnectivityPlusWindowsPluginRegisterWithRegistrar =>
      "ConnectivityPlusWindowsPluginRegisterWithRegistrar"
  | .ScreenRetrieverWindowsPluginCApiRegisterWithRegistrar =>
      "ScreenRetrieverWindowsPluginCApiRegisterWithRegistrar"
  | .SystemTrayPluginRegisterWithRegistrar =>
      "SystemTrayPluginRegisterWithRegistrar"
  | .UrlLauncherWindowsRegisterWithRegistrar =>
      "UrlLauncherWindowsRegisterWithRegistrar"
  | .WindowSizePluginRegisterWithRegistrar =>
      "WindowSizePluginRegisterWithRegistrar"
  | .WindowsNotificationPluginCApiRegisterWithRegistrar =>
      "WindowsNotificationPluginCApiRegisterWithRegistrar"

/-- One recorded call: a registry lookup with the name it was given and the
registrar it returned, or an entry-point call with the registrar it was
given. -/
inductive Call (ρ : Type) where
  | GetRegistrarForPlugin (name : String) (returned : ρ)
  | RegisterWithRegistrar (fn : EntryPoint) (registrar : ρ)
  deriving DecidableEq

/-- The world of the mock: the state `τ` of the registry under test and the
calls recorded so far, oldest first. -/
structure Mock (τ ρ : Type) where
  inner : τ
  trace : List (Call ρ)

/-- A recording registry around an arbitrary lookup behaviour `get`: it answers
as `get` does and records the name and the answer. -/
def mockRegistry {τ ρ : Type} (get : String → τ → ρ × τ) :
    PluginRegistry (Mock τ ρ) ρ where
  GetRegistrarForPlugin := fun name m =>
    ((get name m.inner).1,
     { inner := (get name m.inner).2,
       trace := m.trace ++ [Call.GetRegistrarForPlugin name (get name m.inner).1] })

/-- A recording entry point: it acts on the registry state as `effect` says and
records which entry point was called with which registrar. -/
def mockEntry {τ ρ : Type} (effect : EntryPoint → ρ → τ → τ) (fn : EntryPoint) :
    ρ → StateM (Mock τ ρ) Unit :=
  fun r m =>
    ((), { inner := effect fn r m.inner,
           trace := m.trace ++ [Call.RegisterWithRegistrar fn r] })

/-- The nine recording entry points. -/
def mockPlugins {τ ρ : Type} (effect : EntryPoint → ρ → τ → τ) :
    PluginEntryPoints (Mock τ ρ) ρ where
  AppLinksPluginCApiRegisterWithRegistrar :=
    mockEntry effect .AppLinksPluginCApiRegisterWithRegistrar
  AudioplayersWindowsPluginRegisterWithRegistrar :=
    mockEntry effect .AudioplayersWindowsPluginRegisterWithRegistrar
  BitsdojoWindowPluginRegisterWithRegistrar :=
    mockEntry effect .BitsdojoWindowPluginRegisterWithRegistrar
  ConnectivityPlusWindowsPluginRegisterWithRegistrar :=
    mockEntry effect .ConnectivityPlusWindowsPluginRegisterWithRegistrar
  ScreenRetrieverWindowsPluginCApiRegisterWithRegistrar :=
    mockEntry effect .ScreenRetrieverWindowsPluginCApiRegisterWithRegistrar
  SystemTrayPluginRegisterWithRegistrar :=
    mockEntry effect .SystemTrayPluginRegisterWithRegistrar
  UrlLauncherWindowsRegisterWithRegistrar :=
    mockEntry effect .UrlLauncherWindowsRegisterWithRegistrar
  WindowSizePluginRegisterWithRegistrar :=
    mockEntry effect .WindowSizePluginRegisterWithRegistrar
  WindowsNotificationPluginCApiRegisterWithRegistrar :=
    mockEntry effect .WindowsNotificationPluginCApiRegisterWithRegistrar

/-- The calls recorded during one invocation of `RegisterPlugins` against the
recording mock, started with registry state `s` and an empty record. -/
def callTrace {τ ρ : Type} (get : String → τ → ρ × τ)
    (effect : EntryPoint → ρ → τ → τ) (s : τ) : List (Call ρ) :=
  (RegisterPlugins (mockPlugins effect) (mockRegistry get) ⟨s, []⟩).2.trace

/-- The value `RegisterPlugins` hands back to its caller on the mock. -/
def returnValue {τ ρ : Type} (get : String → τ → ρ × τ)
    (effect : EntryPoint → ρ → τ → τ) (s : τ) : Unit :=
  (RegisterPlugins (mockPlugins effect) (mockRegistry get) ⟨s, []⟩).1

/-! ## Table-driven form -/

/-- The static list of (name, registration function) pairs of the table-driven
form, for given entry points. -/
def pluginTable {σ ρ : Type} (plugins : PluginEntryPoints σ ρ) :
    List (String × (ρ → StateM σ Unit)) :=
  [ ("AppLinksPluginCApi", plugins.AppLinksPluginCApiRegisterWithRegistrar),
    ("AudioplayersWindowsPlugin", plugins.AudioplayersWindowsPluginRegisterWithRegistrar),
    ("BitsdojoWindowPlugin", plugins.BitsdojoWindowPluginRegisterWithRegistrar),
    ("ConnectivityPlusWindowsPlugin",
      plugins.ConnectivityPlusWindowsPluginRegisterWithRegistrar),
    ("ScreenRetrieverWindowsPluginCApi",
      plugins.ScreenRetrieverWindowsPluginCApiRegisterWithRegistrar),
    ("SystemTrayPlugin", plugins.SystemTrayPluginRegisterWithRegistrar),
    ("UrlLauncherWindows", plugins.UrlLauncherWindowsRegisterWithRegistrar),
    ("WindowSizePlugin", plugins.WindowSizePluginRegisterWithRegistrar),
    ("WindowsNotificationPluginCApi",
      plugins.WindowsNotificationPluginCApiRegisterWithRegistrar) ]

/-- One step of the table-driven form: look the name up, then call the
registration function on the result. -/
def registerOne {σ ρ : Type} (registry : PluginRegistry σ ρ)
    (entry : String × (ρ → StateM σ Unit)) : StateM σ Unit := do
  entry.2 (← registry.GetRegistrarForPlugin entry.1)

/-- The table-driven form of the registration: the static list iterated once,
in order. -/
def RegisterPluginsTable {σ ρ : Type} (plugins : PluginEntryPoints σ ρ)
    (registry : PluginRegistry σ ρ) : StateM σ Unit :=
  (pluginTable plugins).forM (registerOne registry)

/-- The calls recorded during one run of the table-driven form against the
recording mock. -/
def tableCallTrace {τ ρ : Type} (get : String → τ → ρ × τ)
    (effect : EntryPoint → ρ → τ → τ) (s : τ) : List (Call ρ) :=
  (RegisterPluginsTable (mockPlugins effect) (mockRegistry get) ⟨s, []⟩).2.trace

/-! ## Observations on a record of calls -/

/-- The pairs of `pluginTable`, with each registration function identified by
its entry point instead of by its behaviour. -/
def entryTable : List (String × EntryPoint) :=
  [ ("AppLinksPluginCApi", .AppLinksPluginCApiRegisterWithRegistrar),
    ("AudioplayersWindowsPlugin", .AudioplayersWindowsPluginRegisterWithRegistrar),
    ("BitsdojoWindowPlugin", .BitsdojoWindowPluginRegisterWithRegistrar),
    ("ConnectivityPlusWindowsPlugin", .ConnectivityPlusWindowsPluginRegisterWithRegistrar),
    ("ScreenRetrieverWindowsPluginCApi",
      .ScreenRetrieverWindowsPluginCApiRegisterWithRegistrar),
    ("SystemTrayPlugin", .SystemTrayPluginRegisterWithRegistrar),
    ("UrlLauncherWindows", .UrlLauncherWindowsRegisterWithRegistrar),
    ("WindowSizePlugin", .WindowSizePluginRegisterWithRegistrar),
    ("WindowsNotificationPluginCApi",
      .WindowsNotificationPluginCApiRegisterWithRegistrar) ]

/-- The record that iterating a table against the mock produces, written as a
plain recursion: for each pair, the lookup with its answer, then the entry
point called on that answer, the registry state threaded through. -/
def tableTrace {τ ρ : Type} (get : String → τ → ρ × τ)
    (effect : EntryPoint → ρ → τ → τ) : List (String × EntryPoint) → τ → List (Call ρ)
  | [], _ => []
  | e :: rest, s =>
      Call.GetRegistrarForPlugin e.1 (get e.1 s).1 ::
      Call.RegisterWithRegistrar e.2 (get e.1 s).1 ::
      tableTrace get effect rest (effect e.2 (get e.1 s).1 (get e.1 s).2)

/-- The registry state after iterating a table against the mock. -/
def tableFinal {τ ρ : Type} (get : String → τ → ρ × τ)
    (effect : EntryPoint → ρ → τ → τ) : List (String × EntryPoint) → τ → τ
  | [], s => s
  | e :: rest, s =>
      tableFinal get effect rest (effect e.2 (get e.1 s).1 (get e.1 s).2)

/-- A recorded call with the registrar value forgotten: which operation was
called, and for a lookup under which name. -/
def Call.erase {ρ : Type} : Call ρ → Call Unit
  | .GetRegistrarForPlugin name _ => .GetRegistrarForPlugin name ()
  | .RegisterWithRegistrar fn _ => .RegisterWithRegistrar fn ()

/-- The name arguments of the registry lookups of a record, in order. -/
def requestedNames {ρ : Type} : List (Call ρ) → List String
  | [] => []
  | .GetRegistrarForPlugin name _ :: rest => name :: requestedNames rest
  | .RegisterWithRegistrar _ _ :: rest => requestedNames rest

/-- The registrars returned by the registry lookups of a record, in order. -/
def returnedRegistrars {ρ : Type} : List (Call ρ) → List ρ
  | [] => []
  | .GetRegistrarForPlugin _ r :: rest => r :: returnedRegistrars rest
  | .RegisterWithRegistrar _ _ :: rest => returnedRegistrars rest

/-- The entry points called in a record, in order. -/
def invokedEntryPoints {ρ : Type} : List (Call ρ) → List EntryPoint
  | [] => []
  | .GetRegistrarForPlugin _ _ :: rest => invokedEntryPoints rest
  | .RegisterWithRegistrar fn _ :: rest => fn :: invokedEntryPoints rest

/-- The registrars handed to the entry points called in a record, in order. -/
def passedRegistrars {ρ : Type} : List (Call ρ) → List ρ
  | [] => []
  | .GetRegistrarForPlugin _ _ :: rest => passedRegistrars rest
  | .RegisterWithRegistrar _ r :: rest => r :: passedRegistrars rest

/-! ## The host around the registration -/

/-- What happens in the host process around the registration. -/
inductive HostEvent (ρ : Type) where
  | RegistryHandleAvailable
  | Registration (call : Call ρ)
  | EventLoopStarted
  deriving DecidableEq

/-- Modelled from the spec: the host application's startup, which calls
`RegisterPlugins` and is not among the sources.  The spec has the host obtain
the registry handle, pass it to `RegisterPlugins` once on the startup thread,
and begin its event loop only when that call has completed. -/
def hostStartup {τ ρ : Type} (get : String → τ → ρ × τ)
    (effect : EntryPoint → ρ → τ → τ) (s : τ) : List (HostEvent ρ) :=
  HostEvent.RegistryHandleAvailable ::
    ((callTrace get effect s).map HostEvent.Registration ++ [HostEvent.EventLoopStarted])

/-! ## Shared lemmas -/

theorem RegisterPlugins_eq_table {σ ρ : Type} (plugins : PluginEntryPoints σ ρ)
    (registry : PluginRegistry σ ρ) :
    RegisterPlugins plugins registry = RegisterPluginsTable plugins registry := by
  rfl

theorem pluginTable_mock {τ ρ : Type} (effect : EntryPoint → ρ → τ → τ) :
    pluginTable (mockPlugins effect)
      = entryTable.map (fun e => (e.1, mockEntry effect e.2)) := by
  rfl

theorem forM_mock {τ ρ : Type} (get : String → τ → ρ × τ)
    (effect : EntryPoint → ρ → τ → τ) (tbl : List (String × EntryPoint))
    (m : Mock τ ρ) :
    ((tbl.map (fun e => (e.1, mockEntry effect e.2))).forM
        (registerOne (mockRegistry get)) m).2
      = { inner := tableFinal get effect tbl m.inner,
          trace := m.trace ++ tableTrace get effect tbl m.inner } := by
  induction tbl generalizing m with
  | nil => simp [List.forM, tableFinal, tableTrace, pure, StateT.pure]
  | cons e rest ih =>
      have step : ((List.map (fun e => (e.1, mockEntry effect e.2)) (e :: rest)).forM
            (registerOne (mockRegistry get)) m).2
          = ((List.map (fun e => (e.1, mockEntry effect e.2)) rest).forM
              (registerOne (mockRegistry get))
              { inner := effect e.2 (get e.1 m.inner).1 (get e.1 m.inner).2,
                trace := (m.trace ++ [Call.GetRegistrarForPlugin e.1 (get e.1 m.inner).1])
                  ++ [Call.RegisterWithRegistrar e.2 (get e.1 m.inner).1] }).2 := rfl
      rw [step, ih]
      simp [tableFinal, tableTrace]

theorem callTrace_eq_tableTrace {τ ρ : Type} (get : String → τ → ρ × τ)
    (effect : EntryPoint → ρ → τ → τ) (s : τ) :
    callTrace get effect s = tableTrace get effect entryTable s := by
  unfold callTrace
  rw [RegisterPlugins_eq_table]
  unfold RegisterPluginsTable
  rw [pluginTable_mock, forM_mock]
  simp

theorem length_tableTrace {τ ρ : Type} (get : String → τ → ρ × τ)
    (effect : EntryPoint → ρ → τ → τ) (tbl : List (String × EntryPoint)) (s : τ) :
    (tableTrace get effect tbl s).length = 2 * tbl.length := by
  induction tbl generalizing s with
  | nil => rfl
  | cons e rest ih => simp [tableTrace, ih]; omega

theorem erase_tableTrace {τ ρ : Type} (get : String → τ → ρ × τ)
    (effect : EntryPoint → ρ → τ → τ) (tbl : List (String × EntryPoint)) (s : τ) :
    (tableTrace get effect tbl s).map Call.erase
      = tableTrace (fun _ (u : Unit) => ((), u)) (fun _ _ u => u) tbl () := by
  induction tbl generalizing s with
  | nil => rfl
  | cons e rest ih => simp [tableTrace, Call.erase, ih]

theorem requestedNames_tableTrace {τ ρ : Type} (get : String → τ → ρ × τ)
    (effect : EntryPoint → ρ → τ → τ) (tbl : List (String × EntryPoint)) (s : τ) :
    requestedNames (tableTrace get effect tbl s) = tbl.map Prod.fst := by
  induction tbl generalizing s with
  | nil => rfl
  | cons e rest ih => simp [tableTrace, requestedNames, ih]

theorem invokedEntryPoints_tableTrace {τ ρ : Type} (get : String → τ → ρ × τ)
    (effect : EntryPoint → ρ → τ → τ) (tbl : List (String × EntryPoint)) (s : τ) :
    invokedEntryPoints (tableTrace get effect tbl s) = tbl.map Prod.snd := by
  induction tbl generalizing s with
  | nil => rfl
  | cons e rest ih => simp [tableTrace, invokedEntryPoints, ih]

theorem passed_eq_returned_tableTrace {τ ρ : Type} (get : String → τ → ρ × τ)
    (effect : EntryPoint → ρ → τ → τ) (tbl : List (String × EntryPoint)) (s : τ) :
    passedRegistrars (tableTrace get effect tbl s)
      = returnedRegistrars (tableTrace get effect tbl s) := by
  induction tbl generalizing s with
  | nil => rfl
  | cons e rest ih => simp [tableTrace, passedRegistrars, returnedRegistrars, ih]

theorem length_callTrace {τ ρ : Type} (get : String → τ → ρ × τ)
    (effect : EntryPoint → ρ → τ → τ) (s : τ) :
    (callTrace get effect s).length = 18 := by
  rw [callTrace_eq_tableTrace, length_tableTrace]; rfl

theorem hostStartup_zero {τ ρ : Type} (get : String → τ → ρ × τ)
    (effect : EntryPoint → ρ → τ → τ) (s : τ) :
    (hostStartup get effect s)[0]? = some HostEvent.RegistryHandleAvailable := by
  simp [hostStartup]

theorem hostStartup_succ_lt {τ ρ : Type} (get : String → τ → ρ × τ)
    (effect : EntryPoint → ρ → τ → τ) (s : τ) (j : Nat) (hj : j < 18) :
    ∃ c, (hostStartup get effect s)[j + 1]? = some (HostEvent.Registration c) := by
  have hlen := length_callTrace get effect s
  have hj2 : j < (callTrace get effect s).length := by omega
  refine ⟨(callTrace get effect s)[j], ?_⟩
  unfold hostStartup
  rw [List.getElem?_cons_succ, List.getElem?_append_left (by simpa using hj2)]
  simp [List.getElem?_eq_getElem hj2]

theorem hostStartup_nineteen {τ ρ : Type} (get : String → τ → ρ × τ)
    (effect : EntryPoint → ρ → τ → τ) (s : τ) :
    (hostStartup get effect s)[19]? = some HostEvent.EventLoopStarted := by
  have hlen := length_callTrace get effect s
  unfold hostStartup
  rw [List.getElem?_cons_succ, List.getElem?_append_right (by simp [hlen])]
  simp [hlen]

theorem hostStartup_beyond {τ ρ : Type} (get : String → τ → ρ × τ)
    (effect : EntryPoint → ρ → τ → τ) (s : τ) (j : Nat) (hj : 19 < j) :
    (hostStartup get effect s)[j]? = none := by
  have hlen := length_callTrace get effect s
  apply List.getElem?_eq_none
  simp [hostStartup, hlen]
  omega

/-! ## The claims -/

/-- C1: for every registry behind the recording mock, one call of
`RegisterPlugins` records exactly eighteen events; with the registrar values
forgotten they are the nine lookups under the nine literal names, each directly
followed by the call of the entry point whose identifier is that name followed
by `RegisterWithRegistrar`, and nothing else before, between or after. -/
theorem C1_trace_is_nine_lookup_register_pairs {τ ρ : Type}
    (get : String → τ → ρ × τ) (effect : EntryPoint → ρ → τ → τ) (s : τ) :
    (callTrace get effect s).length = 18 ∧
    (callTrace get effect s).map Call.erase =
      [ .GetRegistrarForPlugin "AppLinksPluginCApi" (),
        .RegisterWithRegistrar .AppLinksPluginCApiRegisterWithRegistrar (),
        .GetRegistrarForPlugin "AudioplayersWindowsPlugin" (),
        .RegisterWithRegistrar .AudioplayersWindowsPluginRegisterWithRegistrar (),
        .GetRegistrarForPlugin "BitsdojoWindowPlugin" (),
        .RegisterWithRegistrar .BitsdojoWindowPluginRegisterWithRegistrar (),
        .GetRegistrarForPlugin "ConnectivityPlusWindowsPlugin" (),
        .RegisterWithRegistrar .ConnectivityPlusWindowsPluginRegisterWithRegistrar (),
        .GetRegistrarForPlugin "ScreenRetrieverWindowsPluginCApi" (),
        .RegisterWithRegistrar .ScreenRetrieverWindowsPluginCApiRegisterWithRegistrar (),
        .GetRegistrarForPlugin "SystemTrayPlugin" (),
        .RegisterWithRegistrar .SystemTrayPluginRegisterWithRegistrar (),
        .GetRegistrarForPlugin "UrlLauncherWindows" (),
        .RegisterWithRegistrar .UrlLauncherWindowsRegisterWithRegistrar (),
        .GetRegistrarForPlugin "WindowSizePlugin" (),
        .RegisterWithRegistrar .WindowSizePluginRegisterWithRegistrar (),
        .GetRegistrarForPlugin "WindowsNotificationPluginCApi" (),
        .RegisterWithRegistrar .WindowsNotificationPluginCApiRegisterWithRegistrar () ] ∧
    (requestedNames (callTrace get effect s)).length = 9 ∧
    (invokedEntryPoints (callTrace get effect s)).length = 9 ∧
    ∀ k : Fin 9, ∃ name fn,
      ((callTrace get effect s).map Call.erase)[2 * k.val]?
        = some (.GetRegistrarForPlugin name ()) ∧
      ((callTrace get effect s).map Call.erase)[2 * k.val + 1]?
        = some (.RegisterWithRegistrar fn ()) ∧
      fn.symbol = name ++ "RegisterWithRegistrar" := by
  rw [callTrace_eq_tableTrace, erase_tableTrace, length_tableTrace,
    requestedNames_tableTrace, invokedEntryPoints_tableTrace]
  refine ⟨rfl, rfl, rfl, rfl, ?_⟩
  intro k
  fin_cases k <;> exact ⟨_, _, rfl, rfl, by decide⟩

/-- C2: for every registry behind the recording mock, each of the nine entry
points is called exactly once during one call of `RegisterPlugins`: none is
skipped, none is called twice, and nine entry-point calls are made in all. -/
theorem C2_each_entry_point_called_once {τ ρ : Type}
    (get : String → τ → ρ × τ) (effect : EntryPoint → ρ → τ → τ) (s : τ) :
    (invokedEntryPoints (callTrace get effect s)).length = 9 ∧
    (invokedEntryPoints (callTrace get effect s)).count
        .AppLinksPluginCApiRegisterWithRegistrar = 1 ∧
    (invokedEntryPoints (callTrace get effect s)).count
        .AudioplayersWindowsPluginRegisterWithRegistrar = 1 ∧
    (invokedEntryPoints (callTrace get effect s)).count
        .BitsdojoWindowPluginRegisterWithRegistrar = 1 ∧
    (invokedEntryPoints (callTrace get effect s)).count
        .ConnectivityPlusWindowsPluginRegisterWithRegistrar = 1 ∧
    (invokedEntryPoints (callTrace get effect s)).count
        .ScreenRetrieverWindowsPluginCApiRegisterWithRegistrar = 1 ∧
    (invokedEntryPoints (callTrace get effect s)).count
        .SystemTrayPluginRegisterWithRegistrar = 1 ∧
    (invokedEntryPoints (callTrace get effect s)).count
        .UrlLauncherWindowsRegisterWithRegistrar = 1 ∧
    (invokedEntryPoints (callTrace get effect s)).count
        .WindowSizePluginRegisterWithRegistrar = 1 ∧
    (invokedEntryPoints (callTrace get effect s)).count
        .WindowsNotificationPluginCApiRegisterWithRegistrar = 1 ∧
    ∀ fn : EntryPoint, (invokedEntryPoints (callTrace get effect s)).count fn = 1 := by
  rw [callTrace_eq_tableTrace, invokedEntryPoints_tableTrace]
  refine ⟨rfl, by decide, by decide, by decide, by decide, by decide, by decide,
    by decide, by decide, by decide, ?_⟩
  intro fn
  cases fn <;> decide

/-- C3: for every registry behind the recording mock, the names are requested
in the listed order and the entry points are called in the listed order, and
any two invocations, on registries of any kind, request the same names and
call the same entry points in the same order. -/
theorem C3_call_order_is_the_listed_order {τ ρ τ₂ ρ₂ : Type}
    (get : String → τ → ρ × τ) (effect : EntryPoint → ρ → τ → τ) (s : τ)
    (get₂ : String → τ₂ → ρ₂ × τ₂) (effect₂ : EntryPoint → ρ₂ → τ₂ → τ₂) (s₂ : τ₂) :
    requestedNames (callTrace get effect s) =
      [ "AppLinksPluginCApi", "AudioplayersWindowsPlugin", "BitsdojoWindowPlugin",
        "ConnectivityPlusWindowsPlugin", "ScreenRetrieverWindowsPluginCApi",
        "SystemTrayPlugin", "UrlLauncherWindows", "WindowSizePlugin",
        "WindowsNotificationPluginCApi" ] ∧
    invokedEntryPoints (callTrace get effect s) =
      [ .AppLinksPluginCApiRegisterWithRegistrar,
        .AudioplayersWindowsPluginRegisterWithRegistrar,
        .BitsdojoWindowPluginRegisterWithRegistrar,
        .ConnectivityPlusWindowsPluginRegisterWithRegistrar,
        .ScreenRetrieverWindowsPluginCApiRegisterWithRegistrar,
        .SystemTrayPluginRegisterWithRegistrar,
        .UrlLauncherWindowsRegisterWithRegistrar,
        .WindowSizePluginRegisterWithRegistrar,
        .WindowsNotificationPluginCApiRegisterWithRegistrar ] ∧
    requestedNames (callTrace get₂ effect₂ s₂) = requestedNames (callTrace get effect s) ∧
    invokedEntryPoints (callTrace get₂ effect₂ s₂)
      = invokedEntryPoints (callTrace get effect s) ∧
    (callTrace get₂ effect₂ s₂).map Call.erase = (callTrace get effect s).map Call.erase := by
  refine ⟨?_, ?_, ?_, ?_, ?_⟩ <;>
    simp only [callTrace_eq_tableTrace, erase_tableTrace, requestedNames_tableTrace,
      invokedEntryPoints_tableTrace] <;> rfl

/-- C6: for every registry behind the recording mock, each entry point receives
exactly the registrar that the directly preceding lookup, made under that
plugin's own name, returned; the eighteen recorded events are these nine
lookup and entry point pairs, so every returned registrar goes to the one
entry-point call after it and nowhere else.  On a registry that numbers its
answers, each number reaches exactly one entry point, in order. -/
theorem C6_registrar_flows_from_lookup_to_its_entry_point {τ ρ : Type}
    (get : String → τ → ρ × τ) (effect : EntryPoint → ρ → τ → τ) (s : τ) :
    (callTrace get effect s).length = 18 ∧
    (returnedRegistrars (callTrace get effect s)).length = 9 ∧
    passedRegistrars (callTrace get effect s)
      = returnedRegistrars (callTrace get effect s) ∧
    (∀ k : Fin 9, ∃ name fn st,
      (callTrace get effect s)[2 * k.val]?
        = some (.GetRegistrarForPlugin name (get name st).1) ∧
      (callTrace get effect s)[2 * k.val + 1]?
        = some (.RegisterWithRegistrar fn (get name st).1) ∧
      fn.symbol = name ++ "RegisterWithRegistrar") ∧
    passedRegistrars (callTrace (fun _ (c : Nat) => (c, c + 1)) (fun _ _ c => c) 0)
      = [0, 1, 2, 3, 4, 5, 6, 7, 8] := by
  refine ⟨?_, ?_, ?_, ?_, ?_⟩
  · rw [callTrace_eq_tableTrace, length_tableTrace]; rfl
  · rw [callTrace_eq_tableTrace, ← passed_eq_returned_tableTrace]
    rfl
  · rw [callTrace_eq_tableTrace, passed_eq_returned_tableTrace]
  · rw [callTrace_eq_tableTrace]
    intro k
    fin_cases k <;> exact ⟨_, _, _, rfl, rfl, by decide⟩
  · rw [callTrace_eq_tableTrace]
    rfl

/-- C8: `RegisterPlugins` does not depend on what the registry returns: any two
registries, of any registrar type and behaviour, see the same names requested
and the same entry points called, in the same order; every entry point is
called; the value handed back is the unit value, which carries no error; and
against a registry that answers every lookup with a null registrar all nine
entry points are still called, each on that null registrar. -/
theorem C8_calls_do_not_depend_on_returned_registrars {τ ρ τ₂ ρ₂ : Type}
    (get : String → τ → ρ × τ) (effect : EntryPoint → ρ → τ → τ) (s : τ)
    (get₂ : String → τ₂ → ρ₂ × τ₂) (effect₂ : EntryPoint → ρ₂ → τ₂ → τ₂) (s₂ : τ₂) :
    requestedNames (callTrace get effect s) = requestedNames (callTrace get₂ effect₂ s₂) ∧
    invokedEntryPoints (callTrace get effect s)
      = invokedEntryPoints (callTrace get₂ effect₂ s₂) ∧
    (invokedEntryPoints (callTrace get effect s)).length = 9 ∧
    (∀ fn : EntryPoint, fn ∈ invokedEntryPoints (callTrace get effect s)) ∧
    returnValue get effect s = () ∧
    callTrace (fun _ (u : Unit) => ((none : Option Nat), u)) (fun _ _ u => u) () =
      [ .GetRegistrarForPlugin "AppLinksPluginCApi" none,
        .RegisterWithRegistrar .AppLinksPluginCApiRegisterWithRegistrar none,
        .GetRegistrarForPlugin "AudioplayersWindowsPlugin" none,
        .RegisterWithRegistrar .AudioplayersWindowsPluginRegisterWithRegistrar none,
        .GetRegistrarForPlugin "BitsdojoWindowPlugin" none,
        .RegisterWithRegistrar .BitsdojoWindowPluginRegisterWithRegistrar none,
        .GetRegistrarForPlugin "ConnectivityPlusWindowsPlugin" none,
        .RegisterWithRegistrar .ConnectivityPlusWindowsPluginRegisterWithRegistrar none,
        .GetRegistrarForPlugin "ScreenRetrieverWindowsPluginCApi" none,
        .RegisterWithRegistrar .ScreenRetrieverWindowsPluginCApiRegisterWithRegistrar none,
        .GetRegistrarForPlugin "SystemTrayPlugin" none,
        .RegisterWithRegistrar .SystemTrayPluginRegisterWithRegistrar none,
        .GetRegistrarForPlugin "UrlLauncherWindows" none,
        .RegisterWithRegistrar .UrlLauncherWindowsRegisterWithRegistrar none,
        .GetRegistrarForPlugin "WindowSizePlugin" none,
        .RegisterWithRegistrar .WindowSizePluginRegisterWithRegistrar none,
        .GetRegistrarForPlugin "WindowsNotificationPluginCApi" none,
        .RegisterWithRegistrar .WindowsNotificationPluginCApiRegisterWithRegistrar none ] := by
  refine ⟨?_, ?_, ?_, ?_, rfl, ?_⟩
  · simp only [callTrace_eq_tableTrace, requestedNames_tableTrace]
  · simp only [callTrace_eq_tableTrace, invokedEntryPoints_tableTrace]
  · rw [callTrace_eq_tableTrace, invokedEntryPoints_tableTrace]; rfl
  · rw [callTrace_eq_tableTrace, invokedEntryPoints_tableTrace]
    intro fn
    cases fn <;> decide
  · rfl

/-- C9: the hand-written call sequence equals the table-driven form: on every
registry and entry points, from every starting world, `RegisterPlugins` and
one in-order pass over the static nine-entry table give the same result
and the same final world, and so against the recording mock the same record
of calls. -/
theorem C9_equals_table_driven_form {σ ρ τ ρ₂ : Type}
    (plugins : PluginEntryPoints σ ρ) (registry : PluginRegistry σ ρ) (w : σ)
    (get : String → τ → ρ₂ × τ) (effect : EntryPoint → ρ₂ → τ → τ) (s : τ) :
    RegisterPlugins plugins registry w = RegisterPluginsTable plugins registry w ∧
    (pluginTable plugins).length = 9 ∧
    callTrace get effect s = tableCallTrace get effect s := by
  refine ⟨?_, rfl, ?_⟩
  · rw [RegisterPlugins_eq_table]
  · unfold callTrace tableCallTrace
    rw [RegisterPlugins_eq_table]

/-- C7: in the host startup, every call that `RegisterPlugins` makes lies
after the point where the registry handle is available and before the point
where the event loop starts: the handle is available at position 0, the
event loop starts at position 19, and a registration event sits strictly
between them and after every handle event and before every loop-start
event. -/
theorem C7_registration_between_handle_and_event_loop {τ ρ : Type}
    (get : String → τ → ρ × τ) (effect : EntryPoint → ρ → τ → τ) (s : τ)
    (i : Nat) (c : Call ρ)
    (h : (hostStartup get effect s)[i]? = some (HostEvent.Registration c)) :
    (hostStartup get effect s)[0]? = some HostEvent.RegistryHandleAvailable ∧
    (hostStartup get effect s)[19]? = some HostEvent.EventLoopStarted ∧
    0 < i ∧ i < 19 ∧
    (∀ j, (hostStartup get effect s)[j]? = some HostEvent.RegistryHandleAvailable → j < i) ∧
    (∀ j, (hostStartup get effect s)[j]? = some HostEvent.EventLoopStarted → i < j) := by
  have h0 := hostStartup_zero get effect s
  have h19 := hostStartup_nineteen get effect s
  have hpos : 0 < i := by
    rcases Nat.eq_zero_or_pos i with hi | hi
    · subst hi; rw [h0] at h; cases h
    · exact hi
  have hlt : i < 19 := by
    by_contra hge
    rcases Nat.lt_or_ge 19 i with hi | hi
    · rw [hostStartup_beyond get effect s i hi] at h; cases h
    · have : i = 19 := by omega
      subst this; rw [h19] at h; cases h
  refine ⟨h0, h19, hpos, hlt, ?_, ?_⟩
  · intro j hj
    by_contra hge
    rcases Nat.lt_or_ge 19 j with hj2 | hj2
    · rw [hostStartup_beyond get effect s j hj2] at hj; cases hj
    · rcases Nat.lt_or_ge j 19 with hj3 | hj3
      · obtain ⟨c2, hc2⟩ := hostStartup_succ_lt get effect s (j - 1) (by omega)
        have : j - 1 + 1 = j := by omega
        rw [this, hj] at hc2; cases hc2
      · have : j = 19 := by omega
        subst this; rw [h19] at hj; cases hj
  · intro j hj
    by_contra hge
    have hj2 : j < 19 := by omega
    rcases Nat.eq_zero_or_pos j with hj0 | hj0
    · subst hj0; rw [h0] at hj; cases hj
    · obtain ⟨c2, hc2⟩ := hostStartup_succ_lt get effect s (j - 1) (by omega)
      have : j - 1 + 1 = j := by omega
      rw [this, hj] at hc2; cases hc2

/-- C7 at a concrete host run: the first call `RegisterPlugins` makes, on a
registry that numbers its answers. -/
theorem C7_registration_between_witness :
    (hostStartup (fun _ (c : Nat) => (c, c + 1)) (fun _ _ c => c) 0)[1]?
        = some (HostEvent.Registration (Call.GetRegistrarForPlugin "AppLinksPluginCApi" 0)) ∧
    ((hostStartup (fun _ (c : Nat) => (c, c + 1)) (fun _ _ c => c) 0)[0]?
        = some HostEvent.RegistryHandleAvailable ∧
     (hostStartup (fun _ (c : Nat) => (c, c + 1)) (fun _ _ c => c) 0)[19]?
        = some HostEvent.EventLoopStarted ∧
     0 < 1 ∧ 1 < 19 ∧
     (∀ j, (hostStartup (fun _ (c : Nat) => (c, c + 1)) (fun _ _ c => c) 0)[j]?
        = some HostEvent.RegistryHandleAvailable → j < 1) ∧
     (∀ j, (hostStartup (fun _ (c : Nat) => (c, c + 1)) (fun _ _ c => c) 0)[j]?
        = some HostEvent.EventLoopStarted → 1 < j)) :=
  ⟨rfl, C7_registration_between_handle_and_event_loop
    (fun _ (c : Nat) => (c, c + 1)) (fun _ _ c => c) 0 1
    (Call.GetRegistrarForPlugin "AppLinksPluginCApi" 0) rfl⟩

end PluginRegistrant
